import Mathlib

/-!
Verification of the meeting-intelligence AI processing pipeline
(`src/services/meeting`): the job orchestrator, the four Bull stage
queues (transcription, extraction, sentiment, follow-up detection) and
their workers.

The embedding is a shallow one:

* Every database write performed by a worker or by the orchestrator on
  the Meeting document (`Meeting.findByIdAndUpdate` / `meeting.save()`)
  is recorded as an event (`Ev`).  A pipeline execution is a list of
  events; the resulting Meeting document is obtained by folding the
  events over the initial document.
* Each TypeScript method becomes a Lean function from the outcome of
  its external calls (the AI capability, the Redis-backed store) to the
  pair `(trace of events, optionally a thrown error)`.  The `Option
  String` component is `some e` exactly when the TypeScript function
  re-throws.
* The Bull queue contents are modelled as an explicit state
  (`BullQueue`), built by folding the enqueue events; Bull itself is an
  external library, so its enqueue/retry semantics are modelled from
  the specification (each such definition is marked `Modelled from the
  spec:`), while every job option, job id and priority comes from the
  repository's queue classes.
-/

namespace MeetingIntel

/-- The pipeline stages (`transcription`, `extraction`, `sentiment`,
`follow-up-detection` queues in `src/services/meeting/src/queue`). -/
inductive Stage
  | transcription
  | extraction
  | sentiment
  | followUp
deriving DecidableEq, Repr

/-- The Meeting `status` enum from `src/services/meeting/src/models/Meeting.ts`
(lines 233-245): scheduled, pending, processing, transcribed, completed,
cancelled, failed. -/
inductive MeetingStatus
  | scheduled
  | pending
  | processing
  | transcribed
  | completed
  | cancelled
  | failed
deriving DecidableEq, Repr

/-- One observable effect of the pipeline code: a write to a field of the
Meeting document, an enqueue request on a stage queue (carrying the
explicit `jobId` option when the caller passes one), or a job removal. -/
inductive Ev
  | statusWrite (s : MeetingStatus)
  | startedAtWrite
  | completedAtWrite
  | errorWrite (msg : String)
  | costWrite
  | enqueued (st : Stage) (jobId : Option String)
  | removed (st : Stage)
deriving DecidableEq, Repr

/-- The result of running one TypeScript async function: the trace of
effects it performed, and `some e` when it (re-)threw error `e`. -/
abbrev Eff := List Ev × Option String

/-- Sequencing of two awaited steps: if the first throws, the second
never runs and the error propagates. -/
def effSeq (a : Eff) (k : Unit → Eff) : Eff :=
  match a with
  | (t, some e) => (t, some e)
  | (t, none) =>
      match k () with
      | (t2, e2) => (t ++ t2, e2)

/-- Deterministic job id used by `TranscriptionQueue.addJob`
(`transcriptionQueue.ts` line 84). -/
def transcriptionJobId (meetingId : String) : String :=
  "transcription-" ++ meetingId

/-- Id under which `JobOrchestrator.getPipelineStatus` looks up the
extraction job (`jobOrchestrator.ts` line 136). -/
def extractionLookupId (meetingId : String) : String :=
  "extraction-" ++ meetingId

/-- Id under which `JobOrchestrator.getPipelineStatus` looks up the
sentiment job (`jobOrchestrator.ts` line 137). -/
def sentimentLookupId (meetingId : String) : String :=
  "sentiment-" ++ meetingId

/-- Id under which `JobOrchestrator.getPipelineStatus` looks up the
follow-up-detection job (`jobOrchestrator.ts` line 138). -/
def followUpLookupId (meetingId : String) : String :=
  "follow-up-" ++ meetingId

def storeUnavailableMsg : String := "queue store unavailable"
def pipelineStartFailedPre : String := "Pipeline start failed: "
def postTranscriptionFailedPre : String := "Post-transcription pipeline failed: "
def addExtractionFailedMsg : String := "Failed to add extraction job"
def addSentimentFailedMsg : String := "Failed to add sentiment job"
def validationFailedMsg : String := "audio validation failed"
def transcribeFailedMsg : String := "transcription failed"
def extractionFailedMsg : String := "Extraction failed"
def sentimentFailedMsg : String := "Sentiment analysis failed"
def followUpFailedMsg : String := "Follow-up detection failed"
def removalFailedMsg : String := "job removal failed"
def cancelledByUserMsg : String := "Pipeline cancelled by user"
def lookupFailedMsg : String := "queue lookup failed"
def exhaustedMsg : String := "Failed after 3 attempts"

/-- `TranscriptionQueue.addJob` (`transcriptionQueue.ts` lines 80-90):
adds the job with the deterministic `jobId` `transcription-<meetingId>`.
`storeOk` is the outcome of the awaited Redis write; a rejection
propagates to the caller. -/
def TranscriptionQueue.addJob (meetingId : String) (storeOk : Bool) : Eff :=
  if storeOk then
    ([Ev.enqueued Stage.transcription (some (transcriptionJobId meetingId))], none)
  else
    ([], some storeUnavailableMsg)

/-- `ExtractionQueue.addJob` (`extractionQueue.ts` lines 59-70): adds the
job with priority 2 and NO explicit `jobId` (Bull auto-assigns a numeric
id); on store failure it logs and re-throws. -/
def ExtractionQueue.addJob (storeOk : Bool) : Eff :=
  if storeOk then
    ([Ev.enqueued Stage.extraction none], none)
  else
    ([], some addExtractionFailedMsg)

/-- `SentimentQueue.addJob` (`sentimentQueue.ts` lines 58-69): adds the
job with priority 3 and NO explicit `jobId`; on store failure it logs
and re-throws. -/
def SentimentQueue.addJob (storeOk : Bool) : Eff :=
  if storeOk then
    ([Ev.enqueued Stage.sentiment none], none)
  else
    ([], some addSentimentFailedMsg)

/-- `FollowUpDetectionQueue.addJob` (`folloUpDetecttionQueue.ts` lines
56-68): adds the job with priority 4 and NO explicit `jobId`; the catch
block swallows a store failure (logs and continues, never throws). -/
def FollowUpDetectionQueue.addJob (storeOk : Bool) : Eff :=
  if storeOk then
    ([Ev.enqueued Stage.followUp none], none)
  else
    ([], none)

/-- `JobOrchestrator.startPipeline` (`jobOrchestrator.ts` lines 21-52):
awaits `transcriptionQueue.addJob`; in the catch block it writes
`status: failed` and `processing.error` to the Meeting document and then
re-throws the error to its caller. -/
def JobOrchestrator.startPipeline (meetingId : String) (storeOk : Bool) : Eff :=
  match TranscriptionQueue.addJob meetingId storeOk with
  | (t, none) => (t, none)
  | (t, some e) =>
      (t ++ [Ev.statusWrite MeetingStatus.failed,
             Ev.errorWrite (pipelineStartFailedPre ++ e)], some e)

/-- `JobOrchestrator.onTranscriptionComplete` (`jobOrchestrator.ts` lines
58-125): runs the three fan-out `addJob` calls under `Promise.all` (all
three are started; the follow-up one never rejects).  If the extraction
or the sentiment enqueue rejects, the catch block writes `status:
failed` and `processing.error` to the Meeting document but does NOT
re-throw. -/
def JobOrchestrator.onTranscriptionComplete (extOk sentOk fuOk : Bool) : Eff :=
  let ext := ExtractionQueue.addJob extOk
  let sent := SentimentQueue.addJob sentOk
  let fu := FollowUpDetectionQueue.addJob fuOk
  let t := ext.snd.elim ext.fst (fun _ => ext.fst) ++ sent.fst ++ fu.fst
  match ext.snd with
  | some e =>
      (t ++ [Ev.statusWrite MeetingStatus.failed,
             Ev.errorWrite (postTranscriptionFailedPre ++ e)], none)
  | none =>
      match sent.snd with
      | some e =>
          (t ++ [Ev.statusWrite MeetingStatus.failed,
                 Ev.errorWrite (postTranscriptionFailedPre ++ e)], none)
      | none => (t, none)

/-- Possible outcomes of one transcription attempt: success; a failure
before the first Meeting update (audio validation / metadata, steps 1-2
of `TranscriptionWorker.processJob`); or a failure of the transcription
call itself (step 4), after the `status: processing` update of step 3. -/
inductive TrOutcome
  | ok
  | earlyFail
  | transcribeFail
deriving DecidableEq, Repr

/-- `TranscriptionWorker.processJob` (`src/unnamed/part_015` lines 10-98).
Success path: update `{status: processing, processing.startedAt}` (step
3), transcribe, update `{status: transcribed, transcript,
processing.completedAt, processing.cost, processing.model}` (step 5),
then await `JobOrchestrator.onTranscriptionComplete`.  Catch path:
update `{status: failed, processing.error, processing.completedAt}` and
re-throw for Bull's retry mechanism. -/
def TranscriptionWorker.processJob (o : TrOutcome) (extOk sentOk fuOk : Bool) : Eff :=
  match o with
  | TrOutcome.ok =>
      effSeq
        ([Ev.statusWrite MeetingStatus.processing, Ev.startedAtWrite,
          Ev.statusWrite MeetingStatus.transcribed, Ev.completedAtWrite,
          Ev.costWrite], none)
        (fun _ => JobOrchestrator.onTranscriptionComplete extOk sentOk fuOk)
  | TrOutcome.earlyFail =>
      ([Ev.statusWrite MeetingStatus.failed,
        Ev.errorWrite validationFailedMsg,
        Ev.completedAtWrite], some validationFailedMsg)
  | TrOutcome.transcribeFail =>
      ([Ev.statusWrite MeetingStatus.processing, Ev.startedAtWrite,
        Ev.statusWrite MeetingStatus.failed,
        Ev.errorWrite transcribeFailedMsg,
        Ev.completedAtWrite], some transcribeFailedMsg)

/-- `TranscriptionWorker.onFailed` (`src/unnamed/part_015` lines 124-139):
runs after every failed attempt; only when `attemptsMade >=
opts.attempts` does it write `{status: failed, processing.error,
processing.completedAt}`. -/
def TranscriptionWorker.onFailed (attemptsMade maxAttempts : Nat) : Eff :=
  if maxAttempts ≤ attemptsMade then
    ([Ev.statusWrite MeetingStatus.failed,
      Ev.errorWrite exhaustedMsg,
      Ev.completedAtWrite], none)
  else
    ([], none)

/-- `TranscriptionWorker.onStalled` (`src/unnamed/part_015` lines
151-159): writes `{status: pending, processing.error}` when a job
stalls. -/
def TranscriptionWorker.onStalled : Eff :=
  ([Ev.statusWrite MeetingStatus.pending,
    Ev.errorWrite "Job stalled and will be retried"], none)

/-- Possible outcomes of one extraction attempt: success; the meeting
lookup fails (before any status write); or the GPT-4 extraction call
fails (after the `status: processing` write of step 2). -/
inductive ExOutcome
  | ok
  | notFound
  | extractFail
deriving DecidableEq, Repr

/-- `ExtractionWorker.processJob` (`src/unnamed/part_016` lines 24-102).
Success path: set `status = processing` and save (step 2), extract, save
action items / decisions / `processing.cost` (step 6) with the status
still `processing` - the status is never advanced afterwards.  Catch
path: update `{status: failed, processing.error}` and re-throw for
Bull's retry mechanism. -/
def ExtractionWorker.processJob (o : ExOutcome) : Eff :=
  match o with
  | ExOutcome.ok =>
      ([Ev.statusWrite MeetingStatus.processing, Ev.costWrite], none)
  | ExOutcome.notFound =>
      ([Ev.statusWrite MeetingStatus.failed,
        Ev.errorWrite extractionFailedMsg], some extractionFailedMsg)
  | ExOutcome.extractFail =>
      ([Ev.statusWrite MeetingStatus.processing,
        Ev.statusWrite MeetingStatus.failed,
        Ev.errorWrite extractionFailedMsg], some extractionFailedMsg)

/-- `SentimentWorker.processJob` (`sentimentWorker.ts` lines 23-121).
Success path (steps 5-6, one `meeting.save()`): add `processing.cost`,
set `processing.completedAt = new Date()`, set `status = completed` -
unconditionally, with no check that any other stage has finished.  Catch
path: update `{status: failed, processing.error}` and re-throw for
Bull's retry mechanism. -/
def SentimentWorker.processJob (ok : Bool) : Eff :=
  if ok then
    ([Ev.costWrite, Ev.completedAtWrite,
      Ev.statusWrite MeetingStatus.completed], none)
  else
    ([Ev.statusWrite MeetingStatus.failed,
      Ev.errorWrite sentimentFailedMsg], some sentimentFailedMsg)

/-- `FollowUpDetectorWorker.processJob` (`sentimentWorker.ts` lines
195-254, the second class in that file).  Success path: only
`processing.cost` is updated.  Catch path: write `processing.error`
ONLY (no status write) and do NOT re-throw ("Don't fail the whole
meeting - follow-up detection is optional"). -/
def FollowUpDetectorWorker.processJob (ok : Bool) : Eff :=
  if ok then
    ([Ev.costWrite], none)
  else
    ([Ev.errorWrite followUpFailedMsg], none)

/-- One `getJob` / `remove` block of `JobOrchestrator.cancelPipeline`:
`present` is whether the `getJob` lookup returned a job, `removeOk` the
outcome of the awaited `job.remove()`; a rejected removal throws. -/
def removeStep (st : Stage) (present removeOk : Bool) : Eff :=
  if present then
    (if removeOk then ([Ev.removed st], none) else ([], some removalFailedMsg))
  else
    ([], none)

/-- `JobOrchestrator.cancelPipeline` (`jobOrchestrator.ts` lines
193-236): sequentially looks up and removes the transcription,
extraction, sentiment and follow-up jobs, then updates the Meeting to
`{status: cancelled, processing.completedAt, processing.error}`.  All of
this is inside one try block whose catch logs and RE-THROWS, so a
removal failure skips every later step including the status update. -/
def JobOrchestrator.cancelPipeline
    (ptr pex pse pfu rtr rex rse rfu : Bool) : Eff :=
  effSeq (removeStep Stage.transcription ptr rtr) (fun _ =>
    effSeq (removeStep Stage.extraction pex rex) (fun _ =>
      effSeq (removeStep Stage.sentiment pse rse) (fun _ =>
        effSeq (removeStep Stage.followUp pfu rfu) (fun _ =>
          ([Ev.statusWrite MeetingStatus.cancelled,
            Ev.completedAtWrite,
            Ev.errorWrite cancelledByUserMsg], none)))))

/-- The fields of the Meeting document the pipeline writes: its `status`,
whether `processing.startedAt` was set, how many times
`processing.completedAt` has been assigned, and `processing.error`. -/
structure MeetingDoc where
  status : MeetingStatus
  startedAt : Bool
  completedAtWrites : Nat
  errorField : Option String
deriving DecidableEq, Repr

/-- The Meeting document as the upload flow hands it to the pipeline:
`uploadService.ts` sets `status: pending` (lines 66 and 255) right
before calling `JobOrchestrator.startPipeline`; no processing metadata
is set yet. -/
def initialMeeting : MeetingDoc :=
  { status := MeetingStatus.pending
    startedAt := false
    completedAtWrites := 0
    errorField := none }

/-- Apply one recorded effect to the Meeting document (queue events do
not touch the document). -/
def MeetingDoc.applyEv (m : MeetingDoc) : Ev → MeetingDoc
  | Ev.statusWrite s => { m with status := s }
  | Ev.startedAtWrite => { m with startedAt := true }
  | Ev.completedAtWrite => { m with completedAtWrites := m.completedAtWrites + 1 }
  | Ev.errorWrite e => { m with errorField := some e }
  | Ev.costWrite => m
  | Ev.enqueued _ _ => m
  | Ev.removed _ => m

/-- The Meeting document after a trace of effects, starting from the
document the upload flow produced. -/
def runMeeting (t : List Ev) : MeetingDoc :=
  t.foldl MeetingDoc.applyEv initialMeeting

/-- The final `status` field after a trace. -/
def finalStatus (t : List Ev) : MeetingStatus :=
  (runMeeting t).status

/-- The sequence of values written to the Meeting `status` field by a
trace, in order. -/
def statusWrites (t : List Ev) : List MeetingStatus :=
  t.filterMap (fun e =>
    match e with
    | Ev.statusWrite s => some s
    | _ => none)

/-- How many times a trace assigned `processing.completedAt`. -/
def completedAtWriteCount (t : List Ev) : Nat :=
  t.countP (fun e => e == Ev.completedAtWrite)

/-- Position of a status in the forward progression
Scheduled/Pending → Processing → Transcribed → Completed of the
Work-Item state machine (spec §4.4); the two terminal exits share the
top rank. -/
def progressRank : MeetingStatus → Nat
  | MeetingStatus.scheduled => 0
  | MeetingStatus.pending => 0
  | MeetingStatus.processing => 1
  | MeetingStatus.transcribed => 2
  | MeetingStatus.completed => 3
  | MeetingStatus.cancelled => 4
  | MeetingStatus.failed => 4

/-- Each status in the list sits no lower in the progression than its
predecessor. -/
def monotoneStatuses : List MeetingStatus → Bool
  | [] => true
  | [_] => true
  | a :: b :: l => Nat.ble (progressRank a) (progressRank b) && monotoneStatuses (b :: l)

/-- A trace never moves the Meeting `status` backward in the
progression. -/
def regressionFree (t : List Ev) : Bool :=
  monotoneStatuses (statusWrites t)

/-- Each element of the list is less than or equal to its successor. -/
def nondecreasing : List Nat → Bool
  | [] => true
  | [_] => true
  | a :: b :: l => Nat.ble a b && nondecreasing (b :: l)

/-! ### Bull queue state

Bull is an external library; its job store is modelled from the spec.
The repository decides what goes INTO it: which `jobId` (if any) and
which priority each `addJob` passes. -/

/-- Bull job states (spec §3: Waiting, Active, Completed, Failed,
Delayed). -/
inductive JobState
  | waiting
  | active
  | completed
  | failed
  | delayed
deriving DecidableEq, Repr

/-- One stored Bull job: its id (explicit or auto-assigned), its stage
and its state. -/
structure BullJob where
  id : String
  stage : Stage
  state : JobState
deriving DecidableEq, Repr

def BullJob.isTerminal (j : BullJob) : Bool :=
  j.state == JobState.completed || j.state == JobState.failed

/-- One stage's Bull queue: the stored jobs and the next auto-assigned
numeric id (Bull starts auto ids at 1). -/
structure BullQueue where
  jobs : List BullJob
  nextId : Nat
deriving DecidableEq, Repr

def emptyQueue : BullQueue := { jobs := [], nextId := 1 }

/-- Modelled from the spec: Bull's `queue.add` (the queue library is
external to the repository).  Spec §4.1 Enqueue: "`task.id` must be
unique among non-terminal tasks for that stage; violating this is a
silent no-op (returns the existing task)"; a fresh task becomes visible
in Waiting.  When the caller passes no `jobId`, Bull assigns the next
numeric id. -/
def bullAdd (q : BullQueue) (st : Stage) (jid : Option String) : BullQueue :=
  match jid with
  | some j =>
      if q.jobs.any (fun job => job.id == j && !job.isTerminal) then q
      else { jobs := q.jobs ++ [{ id := j, stage := st, state := JobState.waiting }]
             nextId := q.nextId }
  | none =>
      { jobs := q.jobs ++ [{ id := toString q.nextId, stage := st, state := JobState.waiting }]
        nextId := q.nextId + 1 }

/-- The four stage queues of `src/services/meeting/src/queue`. -/
structure Queues where
  transcriptionQ : BullQueue
  extractionQ : BullQueue
  sentimentQ : BullQueue
  followUpQ : BullQueue
deriving DecidableEq, Repr

def initQueues : Queues :=
  { transcriptionQ := emptyQueue
    extractionQ := emptyQueue
    sentimentQ := emptyQueue
    followUpQ := emptyQueue }

/-- Route one enqueue event to its stage's queue (other events leave the
queues unchanged; job execution is not folded here, so a job that no
trace event completes stays outstanding). -/
def Queues.applyEv (qs : Queues) (e : Ev) : Queues :=
  match e with
  | Ev.enqueued Stage.transcription jid =>
      { qs with transcriptionQ := bullAdd qs.transcriptionQ Stage.transcription jid }
  | Ev.enqueued Stage.extraction jid =>
      { qs with extractionQ := bullAdd qs.extractionQ Stage.extraction jid }
  | Ev.enqueued Stage.sentiment jid =>
      { qs with sentimentQ := bullAdd qs.sentimentQ Stage.sentiment jid }
  | Ev.enqueued Stage.followUp jid =>
      { qs with followUpQ := bullAdd qs.followUpQ Stage.followUp jid }
  | _ => qs

/-- The queue contents produced by the enqueue events of a trace. -/
def runQueues (t : List Ev) : Queues :=
  t.foldl Queues.applyEv initQueues

/-- The per-stage state reported by `getPipelineStatus`: either a real
Bull job state, or one of the two fallback labels the orchestrator
substitutes (`pending` / `unknown`). -/
inductive SnapState
  | waiting
  | active
  | completed
  | failed
  | delayed
  | pending
  | unknown
deriving DecidableEq, Repr

def jobStateToSnap : JobState → SnapState
  | JobState.waiting => SnapState.waiting
  | JobState.active => SnapState.active
  | JobState.completed => SnapState.completed
  | JobState.failed => SnapState.failed
  | JobState.delayed => SnapState.delayed

/-- The claim's "pending"/"not started" placeholder: the only such label
the orchestrator produces is the string `pending`
(`jobOrchestrator.ts` lines 146-148). -/
def isNotStartedPlaceholder (s : SnapState) : Bool :=
  s == SnapState.pending

/-- `getJobStatus` of the queue classes (e.g. `transcriptionQueue.ts`
lines 95-114): `queue.getJob(jobId)` followed by `getState`, returning
`null` when no job with that id exists. -/
def BullQueue.getJobStatus (q : BullQueue) (jid : String) : Option SnapState :=
  (q.jobs.find? (fun j => j.id == jid)).map (fun j => jobStateToSnap j.state)

/-- The merged snapshot `getPipelineStatus` returns. -/
structure PipelineSnapshot where
  transcription : SnapState
  extraction : SnapState
  sentiment : SnapState
  followUpDetection : SnapState
  errorField : Option String
deriving DecidableEq, Repr

/-- `JobOrchestrator.getPipelineStatus` (`jobOrchestrator.ts` lines
130-161): looks up `transcription-<id>`, `extraction-<id>`,
`sentiment-<id>`, `follow-up-<id>` in the four queues; a missing
transcription job falls back to `state: unknown` and a missing fan-out
job to `state: pending`; the catch block (modelled by `redisOk = false`)
returns `unknown` for every stage plus an `error` field instead of
throwing. -/
def JobOrchestrator.getPipelineStatus
    (qs : Queues) (meetingId : String) (redisOk : Bool) : PipelineSnapshot :=
  if redisOk then
    { transcription :=
        (qs.transcriptionQ.getJobStatus (transcriptionJobId meetingId)).getD SnapState.unknown
      extraction :=
        (qs.extractionQ.getJobStatus (extractionLookupId meetingId)).getD SnapState.pending
      sentiment :=
        (qs.sentimentQ.getJobStatus (sentimentLookupId meetingId)).getD SnapState.pending
      followUpDetection :=
        (qs.followUpQ.getJobStatus (followUpLookupId meetingId)).getD SnapState.pending
      errorField := none }
  else
    { transcription := SnapState.unknown
      extraction := SnapState.unknown
      sentiment := SnapState.unknown
      followUpDetection := SnapState.unknown
      errorField := some lookupFailedMsg }

/-! ### Retry/backoff machinery -/

/-- Bull job options as configured by a queue's constructor: the retry
count and the exponential-backoff base delay in milliseconds. -/
structure QueueConfig where
  attempts : Nat
  backoffDelayMs : Nat
deriving DecidableEq, Repr

/-- `transcriptionQueue.ts` lines 17-25: `attempts: 3`, exponential
backoff with `delay: 5000`. -/
def transcriptionJobOptions : QueueConfig := { attempts := 3, backoffDelayMs := 5000 }

/-- `extractionQueue.ts` lines 21-29: `attempts: 3`, exponential backoff
with `delay: 2000`. -/
def extractionJobOptions : QueueConfig := { attempts := 3, backoffDelayMs := 2000 }

/-- `sentimentQueue.ts` lines 22-30: `attempts: 3`, exponential backoff
with `delay: 2000`. -/
def sentimentJobOptions : QueueConfig := { attempts := 3, backoffDelayMs := 2000 }

/-- `folloUpDetecttionQueue.ts` lines 20-28: `attempts: 2`, exponential
backoff with `delay: 3000`. -/
def followUpJobOptions : QueueConfig := { attempts := 2, backoffDelayMs := 3000 }

/-- Modelled from the spec: the queue's `Fail` transition (Bull's retry
machinery is external to the repository).  Spec §4.1: "if `attempts <
maxAttempts`, transition Active→Delayed→Waiting after an exponential
backoff delay (`base * 2^(attempts-1)`, capped); otherwise
Active→Failed (terminal)".  Given the number of attempts already made
(the failing one included), returns `some delay` when the task is
retried and `none` when it becomes terminally Failed. -/
def failTransition (cfg : QueueConfig) (attemptsMade : Nat) : Option Nat :=
  if attemptsMade < cfg.attempts then
    some (cfg.backoffDelayMs * 2 ^ (attemptsMade - 1))
  else
    none

/-- Run a task every attempt of which fails, starting after
`attemptsMade` previous attempts with `fuel` execution rounds still
allowed: returns the total number of attempts made when the task
reaches terminal Failed, and the list of backoff delays slept between
consecutive attempts. -/
def simFrom (cfg : QueueConfig) (attemptsMade fuel : Nat) : Nat × List Nat :=
  match fuel with
  | 0 => (attemptsMade, [])
  | Nat.succ f =>
      let a := attemptsMade + 1
      match failTransition cfg a with
      | some d =>
          let r := simFrom cfg a f
          (r.fst, d :: r.snd)
      | none => (a, [])

/-- A fresh always-failing task under the given job options. -/
def simAlwaysFail (cfg : QueueConfig) : Nat × List Nat :=
  simFrom cfg 0 cfg.attempts

/-! ### Pipeline runs

Job execution across the four queues is concurrent in the source; the
canonical run below serialises it in the fan-out submission order
(extraction priority 2, sentiment priority 3, follow-up priority 4),
which is also the order the jobs become claimable.  Where a claim is
order-sensitive, an alternative interleaving is used explicitly. -/

/-- A sample work-item id. -/
def mA : String := "meeting-1"

/-- A fully successful pipeline run: upload calls `startPipeline`, the
transcription job succeeds (fanning out the three dependent jobs), then
extraction, sentiment and follow-up detection each succeed. -/
def successfulRunTrace (m : String) : List Ev :=
  (JobOrchestrator.startPipeline m true).fst ++
  (TranscriptionWorker.processJob TrOutcome.ok true true true).fst ++
  (ExtractionWorker.processJob ExOutcome.ok).fst ++
  (SentimentWorker.processJob true).fst ++
  (FollowUpDetectorWorker.processJob true).fst

/-- A run in which the sentiment job finishes while the extraction job
is still enqueued and unexecuted (fan-out stages may finish in any
order, spec §5). -/
def sentimentFirstTrace (m : String) : List Ev :=
  (JobOrchestrator.startPipeline m true).fst ++
  (TranscriptionWorker.processJob TrOutcome.ok true true true).fst ++
  (SentimentWorker.processJob true).fst

/-- The prefix of a run up to and including the fan-out enqueues, before
any fan-out job executes. -/
def fanOutTrace (m : String) : List Ev :=
  (JobOrchestrator.startPipeline m true).fst ++
  (TranscriptionWorker.processJob TrOutcome.ok true true true).fst

/-- Queue contents right after the fan-out enqueues. -/
def afterFanOut (m : String) : Queues :=
  runQueues (fanOutTrace m)

/-- A run in which both required fan-out stages succeed but the
follow-up detection job fails permanently during execution. -/
def optionalFailRunTrace (m : String) : List Ev :=
  (JobOrchestrator.startPipeline m true).fst ++
  (TranscriptionWorker.processJob TrOutcome.ok true true true).fst ++
  (ExtractionWorker.processJob ExOutcome.ok).fst ++
  (SentimentWorker.processJob true).fst ++
  (FollowUpDetectorWorker.processJob false).fst

/-- A run in which the follow-up detection job cannot even be enqueued
(its store write fails at fan-out time) and the required stages
succeed. -/
def optionalEnqueueFailRunTrace (m : String) : List Ev :=
  (JobOrchestrator.startPipeline m true).fst ++
  (TranscriptionWorker.processJob TrOutcome.ok true true false).fst ++
  (ExtractionWorker.processJob ExOutcome.ok).fst ++
  (SentimentWorker.processJob true).fst

/-- `startPipeline` called twice with the same work-item id. -/
def startTwiceTrace (m : String) : List Ev :=
  (JobOrchestrator.startPipeline m true).fst ++
  (JobOrchestrator.startPipeline m true).fst

/-! ### Claims -/

/-- Claim C1, counterexample.  The claim states that the Work-Item
becomes Completed exactly when the LAST required fan-out stage
finishes and that `processing.completedAt` is set exactly once.  In
the code, the sentiment worker alone sets `status = completed`: in a
run where sentiment finishes while the extraction job is still
enqueued and unexecuted, the status is already `completed` with one
non-terminal extraction job outstanding; and the successful run writes
`processing.completedAt` twice (once in the transcription worker's
step 5, once in the sentiment worker's step 5). -/
theorem C1_counterexample :
    finalStatus (sentimentFirstTrace mA) = MeetingStatus.completed ∧
    (runQueues (sentimentFirstTrace mA)).extractionQ.jobs.countP
      (fun j => !j.isTerminal) = 1 ∧
    completedAtWriteCount (successfulRunTrace mA) = 2 := by
  decide

/-- Claim C1, amended: the Work-Item status becomes Completed when the
sentiment stage succeeds, regardless of whether the other fan-out
stages are still outstanding (there is no fan-in outstanding-count),
and `processing.completedAt` is written twice in a successful pipeline
run - by the transcription worker and again by the sentiment worker. -/
theorem C1_amended (m : String) :
    (SentimentWorker.processJob true).fst =
      [Ev.costWrite, Ev.completedAtWrite,
       Ev.statusWrite MeetingStatus.completed] ∧
    finalStatus (sentimentFirstTrace m) = MeetingStatus.completed ∧
    completedAtWriteCount (successfulRunTrace m) = 2 ∧
    completedAtWriteCount (SentimentWorker.processJob true).fst = 1 ∧
    completedAtWriteCount (TranscriptionWorker.processJob TrOutcome.ok true true true).fst = 1 :=
  ⟨rfl, rfl, rfl, rfl, rfl⟩

/-- Claim C2, counterexample.  The claim states that EVERY stage's task
carries the deterministic id `stage:workItemId` and that
`GetPipelineStatus` therefore sees the task's actual state once
enqueued.  In the code only `TranscriptionQueue.addJob` passes a
`jobId`; after the fan-out the extraction queue holds one non-terminal
job whose id is the auto-assigned `1`, the lookup under
`extraction-<id>` finds nothing, and the snapshot reports the
`pending` placeholder although the task is enqueued and waiting. -/
theorem C2_counterexample :
    (afterFanOut mA).extractionQ.jobs.map BullJob.id = ["1"] ∧
    (afterFanOut mA).extractionQ.jobs.countP (fun j => !j.isTerminal) = 1 ∧
    (afterFanOut mA).extractionQ.getJobStatus (extractionLookupId mA) = none ∧
    (JobOrchestrator.getPipelineStatus (afterFanOut mA) mA true).extraction =
      SnapState.pending := by
  decide

/-- Claim C2, amended: only the entry (transcription) task carries the
deterministic id `transcription-<workItemId>`, and only for it does
`getPipelineStatus` report the actual queue state; the fan-out
`addJob` calls pass no job id, so their tasks get auto-assigned
numeric ids, the deterministic lookup never finds them, and the
snapshot reports the `pending` placeholder for them even after they
are enqueued. -/
theorem C2_amended (m : String) :
    (TranscriptionQueue.addJob m true).fst =
      [Ev.enqueued Stage.transcription (some (transcriptionJobId m))] ∧
    (ExtractionQueue.addJob true).fst = [Ev.enqueued Stage.extraction none] ∧
    (SentimentQueue.addJob true).fst = [Ev.enqueued Stage.sentiment none] ∧
    (FollowUpDetectionQueue.addJob true).fst = [Ev.enqueued Stage.followUp none] ∧
    (afterFanOut mA).transcriptionQ.getJobStatus (transcriptionJobId mA) =
      some SnapState.waiting ∧
    JobOrchestrator.getPipelineStatus (afterFanOut mA) mA true =
      { transcription := SnapState.waiting
        extraction := SnapState.pending
        sentiment := SnapState.pending
        followUpDetection := SnapState.pending
        errorField := none } :=
  ⟨rfl, rfl, rfl, rfl, by decide, by decide⟩

/-- Claim C3, counterexample.  The claim states that the Work-Item
status never moves backward in the progression Scheduled/Pending →
Processing → Transcribed → Completed except via cancellation or
re-submission.  In the fully successful pipeline run - with no
cancellation and no re-submission - the status sequence is
`[processing, transcribed, processing, completed]`: the extraction
worker's step 2 writes `processing` after the transcription worker
wrote `transcribed`. -/
theorem C3_counterexample :
    statusWrites (successfulRunTrace mA) =
      [MeetingStatus.processing, MeetingStatus.transcribed,
       MeetingStatus.processing, MeetingStatus.completed] ∧
    regressionFree (successfulRunTrace mA) = false ∧
    MeetingStatus.cancelled ∉ statusWrites (successfulRunTrace mA) := by
  decide

/-- Claim C3, amended: the status does regress during normal pipeline
execution, without any cancellation or re-submission: the extraction
worker unconditionally sets `status = processing` when it starts
(after the transcription worker set `transcribed`), so a successful
run writes exactly `[processing, transcribed, processing, completed]`;
the transcription stall handler likewise writes `pending`. -/
theorem C3_amended (m : String) :
    statusWrites (successfulRunTrace m) =
      [MeetingStatus.processing, MeetingStatus.transcribed,
       MeetingStatus.processing, MeetingStatus.completed] ∧
    statusWrites (ExtractionWorker.processJob ExOutcome.ok).fst =
      [MeetingStatus.processing] ∧
    statusWrites TranscriptionWorker.onStalled.fst = [MeetingStatus.pending] :=
  ⟨rfl, rfl, rfl⟩

/-- Claim C4, counterexample.  The claim states that a transient stage
failure (attempts still below `maxAttempts`) leaves the Work-Item
status unchanged.  In the code the sentiment worker's catch block
writes `status = failed` on EVERY failed attempt - also on the first
of three configured attempts, which will still be retried. -/
theorem C4_counterexample :
    1 < sentimentJobOptions.attempts ∧
    statusWrites (SentimentWorker.processJob false).fst = [MeetingStatus.failed] ∧
    (runMeeting (SentimentWorker.processJob false).fst).status = MeetingStatus.failed := by
  decide

/-- Claim C4, amended: every failing attempt of a transcription,
extraction or sentiment job writes `status = failed` and the failure
reason to the Work-Item immediately, even while attempts remain; the
transcription `onFailed` handler performs its extra permanent-failure
update only once attempts are exhausted; only the follow-up worker
leaves the status untouched on failure. -/
theorem C4_amended :
    statusWrites (SentimentWorker.processJob false).fst = [MeetingStatus.failed] ∧
    statusWrites (ExtractionWorker.processJob ExOutcome.extractFail).fst =
      [MeetingStatus.processing, MeetingStatus.failed] ∧
    statusWrites (TranscriptionWorker.processJob TrOutcome.transcribeFail true true true).fst =
      [MeetingStatus.processing, MeetingStatus.failed] ∧
    TranscriptionWorker.onFailed 1 3 = ([], none) ∧
    TranscriptionWorker.onFailed 2 3 = ([], none) ∧
    statusWrites (TranscriptionWorker.onFailed 3 3).fst = [MeetingStatus.failed] ∧
    statusWrites (FollowUpDetectorWorker.processJob false).fst = [] := by
  decide

/-- Claim C5: a stage task that fails on every attempt reaches terminal
Failed after exactly `maxAttempts` attempts - 3 for transcription,
extraction and sentiment, 2 for follow-up detection - never more, with
the backoff delay before each retry equal to `base * 2^(attempts-1)`
and hence non-decreasing between successive attempts. -/
theorem C5_retry_bound :
    simAlwaysFail transcriptionJobOptions = (3, [5000, 10000]) ∧
    simAlwaysFail extractionJobOptions = (3, [2000, 4000]) ∧
    simAlwaysFail sentimentJobOptions = (3, [2000, 4000]) ∧
    simAlwaysFail followUpJobOptions = (2, [3000]) ∧
    (simAlwaysFail transcriptionJobOptions).snd =
      (List.range (transcriptionJobOptions.attempts - 1)).map
        (fun k => transcriptionJobOptions.backoffDelayMs * 2 ^ k) ∧
    (simAlwaysFail followUpJobOptions).snd =
      (List.range (followUpJobOptions.attempts - 1)).map
        (fun k => followUpJobOptions.backoffDelayMs * 2 ^ k) ∧
    nondecreasing (simAlwaysFail transcriptionJobOptions).snd = true ∧
    nondecreasing (simAlwaysFail extractionJobOptions).snd = true ∧
    nondecreasing (simAlwaysFail sentimentJobOptions).snd = true ∧
    nondecreasing (simAlwaysFail followUpJobOptions).snd = true := by
  decide

/-- Claim C6, counterexample.  The claim states that `cancelPipeline`
sets the status to Cancelled in ALL cases, including when a task
removal fails.  In the code the whole method body sits in one try
block whose catch re-throws: when the transcription job's removal
rejects, no status write happens at all and the error propagates. -/
theorem C6_counterexample :
    (JobOrchestrator.cancelPipeline true true true true false true true true).snd =
      some removalFailedMsg ∧
    statusWrites
      (JobOrchestrator.cancelPipeline true true true true false true true true).fst = [] ∧
    MeetingStatus.cancelled ∉
      statusWrites
        (JobOrchestrator.cancelPipeline true true true true false true true true).fst := by
  decide

/-- Claim C6, amended: `cancelPipeline` sets the Work-Item status to
Cancelled (and writes `processing.completedAt` and the cancellation
error message) when every attempted removal succeeds - including when
some jobs are simply absent - but a failing removal aborts the method
before the status update and re-throws. -/
theorem C6_amended (ptr pex pse pfu rtr rex rse rfu : Bool)
    (h1 : ptr → rtr) (h2 : pex → rex) (h3 : pse → rse) (h4 : pfu → rfu) :
    (JobOrchestrator.cancelPipeline ptr pex pse pfu rtr rex rse rfu).snd = none ∧
    statusWrites (JobOrchestrator.cancelPipeline ptr pex pse pfu rtr rex rse rfu).fst =
      [MeetingStatus.cancelled] ∧
    Ev.completedAtWrite ∈
      (JobOrchestrator.cancelPipeline ptr pex pse pfu rtr rex rse rfu).fst := by
  cases ptr <;> cases pex <;> cases pse <;> cases pfu <;>
    simp_all [JobOrchestrator.cancelPipeline, removeStep, effSeq, statusWrites]

/-- Witness for the amended C6 at a concrete input: all four jobs
present and all four removals succeeding. -/
theorem C6_amended_witness :
    (JobOrchestrator.cancelPipeline true true true true true true true true).snd = none ∧
    statusWrites (JobOrchestrator.cancelPipeline true true true true true true true true).fst =
      [MeetingStatus.cancelled] ∧
    Ev.completedAtWrite ∈
      (JobOrchestrator.cancelPipeline true true true true true true true true).fst :=
  C6_amended true true true true true true true true
    (fun h => h) (fun h => h) (fun h => h) (fun h => h)

/-- Claim C7, counterexample.  The claim states that when the entry
queue rejects the submission, `startPipeline` returns the error and
leaves the Work-Item status unchanged.  In the code the catch block
writes `status = failed` (and `processing.error`) before re-throwing. -/
theorem C7_counterexample :
    (JobOrchestrator.startPipeline mA false).snd = some storeUnavailableMsg ∧
    statusWrites (JobOrchestrator.startPipeline mA false).fst = [MeetingStatus.failed] := by
  decide

/-- Claim C7, amended: when the entry queue rejects the submission,
`startPipeline` does return the error to its caller, but it first
mutates the Work-Item, setting `status = failed` and
`processing.error`. -/
theorem C7_amended (m : String) :
    (JobOrchestrator.startPipeline m false).snd = some storeUnavailableMsg ∧
    statusWrites (JobOrchestrator.startPipeline m false).fst = [MeetingStatus.failed] ∧
    (runMeeting (JobOrchestrator.startPipeline m false).fst).status = MeetingStatus.failed ∧
    (runMeeting (JobOrchestrator.startPipeline m false).fst).errorField =
      some (pipelineStartFailedPre ++ storeUnavailableMsg) :=
  ⟨rfl, rfl, rfl, rfl⟩

/-- After `bullAdd` with an explicit id, a non-terminal job with that id
is stored. -/
theorem bullAdd_explicit_mem (q : BullQueue) (st : Stage) (j : String) :
    (bullAdd q st (some j)).jobs.any
      (fun job => job.id == j && !job.isTerminal) = true := by
  show ((if (q.jobs.any fun job => job.id == j && !job.isTerminal) = true then q
         else { jobs := q.jobs ++ [{ id := j, stage := st, state := JobState.waiting }]
                nextId := q.nextId }).jobs.any
      (fun job => job.id == j && !job.isTerminal)) = true
  cases h : q.jobs.any (fun job => job.id == j && !job.isTerminal) with
  | true => rw [if_pos rfl]; exact h
  | false =>
      rw [if_neg (fun hc => Bool.false_ne_true hc)]
      simp [List.any_append, h, BullJob.isTerminal]

/-- Bull's `add` with an explicit job id is idempotent: re-adding the
same id while a non-terminal job with that id is stored is a silent
no-op. -/
theorem bullAdd_explicit_idem (q : BullQueue) (st : Stage) (j : String) :
    bullAdd (bullAdd q st (some j)) st (some j) = bullAdd q st (some j) := by
  have hmem := bullAdd_explicit_mem q st j
  generalize hQ : bullAdd q st (some j) = Q at hmem ⊢
  show (if Q.jobs.any (fun job => job.id == j && !job.isTerminal) then Q
        else { jobs := Q.jobs ++ [{ id := j, stage := st, state := JobState.waiting }]
               nextId := Q.nextId }) = Q
  rw [if_pos hmem]

/-- Claim C8: calling `startPipeline` twice with the same work-item id
enqueues at most one entry-stage (transcription) task: the second
`addJob` with the deterministic id `transcription-<id>` is a silent
no-op while that task is non-terminal - the queue state is the same as
after a single call, exactly one non-terminal transcription task is
stored, and no error is raised. -/
theorem C8_idempotent_submission (m : String) :
    runQueues (startTwiceTrace m) =
      runQueues (JobOrchestrator.startPipeline m true).fst ∧
    (runQueues (startTwiceTrace m)).transcriptionQ.jobs.countP
      (fun j => !j.isTerminal) = 1 ∧
    (JobOrchestrator.startPipeline m true).snd = none := by
  have h : runQueues (startTwiceTrace m) =
      runQueues (JobOrchestrator.startPipeline m true).fst := by
    simp [startTwiceTrace, runQueues, JobOrchestrator.startPipeline,
      TranscriptionQueue.addJob, Queues.applyEv, bullAdd_explicit_idem]
  refine ⟨h, ?_, rfl⟩
  rw [h]
  rfl

/-- Claim C9: a permanent failure of the optional follow-up-detection
stage is swallowed: a failed enqueue does not reject (`addJob`
catches), the fan-out proceeds without error, a failed execution
writes only `processing.error` - never the status field - and does not
re-throw; and the Work-Item still ends Completed when the required
stages succeed, whether the follow-up stage failed during execution or
was never enqueued at all. -/
theorem C9_optional_stage_swallowed (m : String) :
    (FollowUpDetectorWorker.processJob false).snd = none ∧
    statusWrites (FollowUpDetectorWorker.processJob false).fst = [] ∧
    (FollowUpDetectionQueue.addJob false).snd = none ∧
    (JobOrchestrator.onTranscriptionComplete true true false).snd = none ∧
    statusWrites (JobOrchestrator.onTranscriptionComplete true true false).fst = [] ∧
    finalStatus (optionalFailRunTrace m) = MeetingStatus.completed ∧
    finalStatus (optionalEnqueueFailRunTrace m) = MeetingStatus.completed :=
  ⟨rfl, rfl, rfl, rfl, rfl, rfl, rfl⟩

/-- Claim C10, counterexample.  The claim states that the snapshot
reports a "pending"/"not started" placeholder for ANY stage whose task
does not exist yet.  For a missing transcription task the code falls
back to `state: 'unknown'` (`jobOrchestrator.ts` line 145), which is
not the pending placeholder. -/
theorem C10_counterexample :
    (JobOrchestrator.getPipelineStatus initQueues mA true).transcription =
      SnapState.unknown ∧
    isNotStartedPlaceholder
      (JobOrchestrator.getPipelineStatus initQueues mA true).transcription = false := by
  decide

/-- Claim C10, amended: `getPipelineStatus` is total and never raises:
it always returns a snapshot covering all four stages; a missing
fan-out task is reported with the `pending` placeholder but a missing
transcription task with `unknown`; and when the queue lookups fail the
catch block returns `unknown` for every stage plus an error field
instead of raising. -/
theorem C10_amended (qs : Queues) (m : String) :
    (JobOrchestrator.getPipelineStatus initQueues m true).transcription =
      SnapState.unknown ∧
    (JobOrchestrator.getPipelineStatus initQueues m true).extraction =
      SnapState.pending ∧
    (JobOrchestrator.getPipelineStatus initQueues m true).sentiment =
      SnapState.pending ∧
    (JobOrchestrator.getPipelineStatus initQueues m true).followUpDetection =
      SnapState.pending ∧
    JobOrchestrator.getPipelineStatus qs m false =
      { transcription := SnapState.unknown
        extraction := SnapState.unknown
        sentiment := SnapState.unknown
        followUpDetection := SnapState.unknown
        errorField := some lookupFailedMsg } :=
  ⟨rfl, rfl, rfl, rfl, rfl⟩

end MeetingIntel
